import Mathlib

/-!
Verification of the `LatentNeRF` scene-optimization controller
(`threestudio/systems/latentnerf.py`) against its design specification.

The controller is embedded shallowly:
* tensors with four axes (batch, height, width, channel) become `Tensor4`,
  a shape record together with an index function;
* the render-output dictionary of `forward` becomes an association list
  from `String` keys with Python-dict update semantics;
* the render output consumed by `training_step` becomes the record
  `RenderOut` whose optional channels (`normal`, `t_dirs`) are `Option`s;
* Python exceptions become an `Except PyError` result;
* loss arithmetic is over `ℝ`, with the evaluated loss-weight schedule
  values (`self.C(...)`) taken as plain real parameters;
* the lazily constructed guidance model becomes an `Option` field of an
  explicit state record, threaded through the lifecycle hooks.

External collaborators that live outside this repository (the renderer,
the diffusion guidance network, the prompt encoder, `torch` itself) are
abstract parameters.  The helper functions `dot` and
`binary_cross_entropy` are imported by the source from
`threestudio.utils.ops`, a module not part of this fragment; they are
modelled from the specification's description and marked as such.
-/

namespace LatentNeRF

/-- Python exceptions that the embedded code paths can raise. -/
inductive PyError where
  | valueError (msg : String)
  | keyError (key : String)
  | attributeError (attr : String)
deriving DecidableEq, Repr

/-! ## Tensors and dictionaries -/

/-- A four-axis tensor (batch, height, width, channel): its shape together
with an index function.  Only the axis permutations used by
`LatentNeRF.forward` are modelled. -/
structure Tensor4 where
  d0 : Nat
  d1 : Nat
  d2 : Nat
  d3 : Nat
  data : Nat → Nat → Nat → Nat → ℝ

/-- `t.permute(0, 3, 1, 2)`: new axis order (old0, old3, old1, old2). -/
def Tensor4.permute_0312 (t : Tensor4) : Tensor4 :=
  ⟨t.d0, t.d3, t.d1, t.d2, fun a b c d => t.data a c d b⟩

/-- `t.permute(0, 2, 3, 1)`: new axis order (old0, old2, old3, old1). -/
def Tensor4.permute_0231 (t : Tensor4) : Tensor4 :=
  ⟨t.d0, t.d2, t.d3, t.d1, fun a b c d => t.data a d b c⟩

/-- A Python dictionary with string keys, as an association list. -/
abbrev Dict (α : Type) : Type := List (String × α)

/-- `d[k]`, as an `Option`. -/
def dictGet {α : Type} (d : Dict α) (k : String) : Option α :=
  List.lookup k d

/-- `d[k] = v`: replace the binding in place if `k` is present, otherwise
append it, matching Python-dict insertion-order semantics. -/
def dictSet {α : Type} (d : Dict α) (k : String) (v : α) : Dict α :=
  if d.any (fun kv => kv.1 = k) then
    d.map (fun kv => if kv.1 = k then (k, v) else kv)
  else
    d ++ [(k, v)]

/-- `k in d`. -/
def dictMem {α : Type} (d : Dict α) (k : String) : Bool :=
  d.any (fun kv => kv.1 = k)

/-! ## Guidance model and forward -/

/-- The diffusion guidance model, seen from this controller: an opaque
object exposing a `decode_latents` transform from latent-space color to
pixel-space color. -/
structure Guidance where
  decode_latents : Tensor4 → Tensor4

/-- `LatentNeRF.forward(batch, decode)`.  The renderer is an abstract
collaborator `renderer : Batch → Dict Tensor4`; `guidance` is the
lazily-constructed instance (`none` when not yet constructed, in which
case the non-refinement decode path fails with Python's
`AttributeError` on `None`). -/
def forward {Batch : Type} (refinement : Bool) (guidance : Option Guidance)
    (renderer : Batch → Dict Tensor4) (batch : Batch) (decode : Bool) :
    Except PyError (Dict Tensor4) :=
  let out := renderer batch
  if decode then
    if refinement then
      match dictGet out "comp_rgb" with
      | none => .error (.keyError "comp_rgb")
      | some c => .ok (dictSet out "decoded_rgb" c)
    else
      match guidance with
      | none => .error (.attributeError "decode_latents")
      | some g =>
        match dictGet out "comp_rgb" with
        | none => .error (.keyError "comp_rgb")
        | some c =>
          .ok (dictSet out "decoded_rgb"
            ((g.decode_latents c.permute_0312).permute_0231))
  else
    .ok out

/-! ## Checkpoint filtering -/

/-- The top-level segment of a dotted parameter name: Python's
`k.split(".")[0]`, i.e. the longest dot-free leading segment of `k`. -/
def topLevelSegment (k : String) : String :=
  String.mk (k.toList.takeWhile (fun c => c ≠ '.'))

/-- `LatentNeRF.on_save_checkpoint`: keep exactly the state-dict entries
whose top-level dotted-name segment is neither `"prompt_processor"` nor
`"guidance"`. -/
def on_save_checkpoint {α : Type} (state_dict : List (String × α)) :
    List (String × α) :=
  state_dict.filter
    (fun kv => ¬ (topLevelSegment kv.1 = "prompt_processor" ∨
                  topLevelSegment kv.1 = "guidance"))

/-! ## Deferred guidance construction and lifecycle hooks -/

/-- The mutable state relevant to deferred guidance construction: the
optional guidance instance, plus an instrumentation counter recording how
many times a guidance model has been constructed. -/
structure GuidanceState where
  guidance : Option Guidance
  constructions : Nat
deriving Inhabited

/-- `LatentNeRF.setup_guidance`: construct the guidance model from the
configured type-tag and options iff no instance exists yet.  `build`
abstracts `threestudio.find(self.cfg.guidance_type)(self.cfg.guidance)`. -/
def setup_guidance (build : Unit → Guidance) (s : GuidanceState) :
    GuidanceState :=
  match s.guidance with
  | none => { guidance := some (build ()), constructions := s.constructions + 1 }
  | some _ => s

/-- `LatentNeRF.on_fit_start`: runs `setup_guidance` unconditionally
(the prompt-processor construction it also performs is orthogonal and not
modelled). -/
def on_fit_start (build : Unit → Guidance) (_refinement : Bool)
    (s : GuidanceState) : GuidanceState :=
  setup_guidance build s

/-- `LatentNeRF.on_validation_start`: runs `setup_guidance` only when not
in refinement mode. -/
def on_validation_start (build : Unit → Guidance) (refinement : Bool)
    (s : GuidanceState) : GuidanceState :=
  if refinement then s else setup_guidance build s

/-- `LatentNeRF.on_test_start`: runs `setup_guidance` only when not in
refinement mode. -/
def on_test_start (build : Unit → Guidance) (refinement : Bool)
    (s : GuidanceState) : GuidanceState :=
  if refinement then s else setup_guidance build s

/-- The lifecycle hooks of the host framework that touch guidance
construction. -/
inductive Hook where
  | fitStart
  | validationStart
  | testStart
deriving DecidableEq, Repr

/-- Dispatch one lifecycle hook on the guidance state. -/
def runHook (build : Unit → Guidance) (refinement : Bool) :
    Hook → GuidanceState → GuidanceState
  | .fitStart => on_fit_start build refinement
  | .validationStart => on_validation_start build refinement
  | .testStart => on_test_start build refinement

/-- Run a sequence of lifecycle hooks (a "run" of the host framework). -/
def runHooks (build : Unit → Guidance) (refinement : Bool)
    (hooks : List Hook) (s : GuidanceState) : GuidanceState :=
  hooks.foldl (fun st h => runHook build refinement h st) s

/-! ## Training step: loss terms -/

/-- A per-sample three-vector (a normal or a ray direction). -/
abbrev Vec3 : Type := ℝ × ℝ × ℝ

/-- Modelled from the spec: `dot` is imported from `threestudio.utils.ops`,
which is not part of this fragment; the spec describes it as the "dot
product between normal and ray direction", taken per sample. -/
def dot (x y : Vec3) : ℝ :=
  x.1 * y.1 + x.2.1 * y.2.1 + x.2.2 * y.2.2

/-- `x.clamp_min(lo)`. -/
def clampMin (x lo : ℝ) : ℝ := max x lo

/-- `x.clamp(lo, hi)`. -/
def clamp (x lo hi : ℝ) : ℝ := min (max x lo) hi

/-- `t.mean()` for a one-axis tensor. -/
noncomputable def mean (l : List ℝ) : ℝ := l.sum / l.length

/-- `(out["opacity"] > 0).sum()`: the count of rays whose accumulated
opacity exceeds zero. -/
noncomputable def countPosOpacity (opacity : List ℝ) : ℕ :=
  (opacity.filter (fun o => 0 < o)).length

/-- The orientation loss
`(out["weights"].detach() * dot(out["normal"], out["t_dirs"]).clamp_min(0.0) ** 2).sum() / (out["opacity"] > 0).sum()`.
`detach` is the identity on values (it only stops gradients), so it is not
represented. -/
noncomputable def lossOrient (weights : List ℝ) (normal t_dirs : List Vec3)
    (opacity : List ℝ) : ℝ :=
  (List.zipWith (fun w nd => w * clampMin (dot nd.1 nd.2) 0 ^ 2)
      weights (normal.zip t_dirs)).sum
    / (countPosOpacity opacity : ℝ)

/-- The sparsity loss `(out["opacity"] ** 2 + 0.01).sqrt().mean()`. -/
noncomputable def lossSparsity (opacity : List ℝ) : ℝ :=
  mean (opacity.map (fun o => Real.sqrt (o ^ 2 + 0.01)))

/-- Modelled from the spec: `binary_cross_entropy` is imported from
`threestudio.utils.ops`, which is not part of this fragment; the spec
describes it as the binary cross-entropy of the input against the target,
i.e. the mean of `-(t * log x + (1 - t) * log (1 - x))`. -/
noncomputable def binary_cross_entropy (input target : List ℝ) : ℝ :=
  mean (List.zipWith
    (fun x t => -(t * Real.log x + (1 - t) * Real.log (1 - x)))
    input target)

/-- `out["opacity"].clamp(1.0e-3, 1.0 - 1.0e-3)`. -/
def opacityClamped (opacity : List ℝ) : List ℝ :=
  opacity.map (fun o => clamp o 1.0e-3 (1 - 1.0e-3))

/-- The opacity-binarization loss `loss_opaque`:
`binary_cross_entropy(opacity_clamped, opacity_clamped)`. -/
noncomputable def lossOpacityBin (opacity : List ℝ) : ℝ :=
  binary_cross_entropy (opacityClamped opacity) (opacityClamped opacity)

/-! ## Training step: control flow -/

/-- The render output as consumed by `training_step`.  `"normal"` and
`"t_dirs"` are optional channels (their presence depends on the active
geometry); the remaining channels are those the training step always
expects. -/
structure RenderOut where
  normal : Option (List Vec3)
  t_dirs : Option (List Vec3)
  weights : List ℝ
  opacity : List ℝ
  points : List Vec3
  density : List ℝ

/-- The evaluated loss-weight schedule values `self.C(self.cfg.loss.*)`
at the current training step. -/
structure LossWeights where
  lambda_sds : ℝ
  lambda_orient : ℝ
  lambda_sparsity : ℝ
  lambda_opac : ℝ
  lambda_shape : ℝ

/-- The observable outcome of one training step: the returned total loss
together with the logged per-term values.  `loss_orient`/`loss_shape` are
`none` exactly when the corresponding branch was skipped (the term was
never computed / the evaluator never invoked); `orient_denom` records the
denominator count used by the orientation-loss normalization. -/
structure StepResult where
  loss : ℝ
  loss_orient : Option ℝ
  orient_denom : Option ℕ
  loss_sparsity : ℝ
  loss_opac : ℝ
  loss_shape : Option ℝ

/-- The orientation-loss branch of `training_step`
(`if self.C(self.cfg.loss.lambda_orient) > 0: ...`): skipped entirely when
the evaluated weight is not positive; an explicit `ValueError` when
`"normal"` is absent; Python's implicit `KeyError` when `"t_dirs"` is then
absent; otherwise the logged orientation-loss value together with the
normalization denominator `(out["opacity"] > 0).sum()`. -/
noncomputable def orientPart (w : LossWeights) (out : RenderOut) :
    Except PyError (Option ℝ × Option ℕ) :=
  if 0 < w.lambda_orient then
    match out.normal with
    | none => .error (.valueError
        "Normal is required for orientation loss, no normal is found in the output.")
    | some n =>
      match out.t_dirs with
      | none => .error (.keyError "t_dirs")
      | some d =>
        .ok (some (lossOrient out.weights n d out.opacity),
             some (countPosOpacity out.opacity))
  else
    .ok (none, none)

/-- The shape-loss branch of `training_step`
(`if self.C(self.cfg.loss.lambda_shape) > 0 and out["points"].shape[0] > 0`):
`some` of the evaluated shape loss when the weight is positive and the
render produced at least one sample point, `none` (evaluator not invoked)
otherwise. -/
noncomputable def shapeTerm (w : LossWeights)
    (shape_loss : List Vec3 → List ℝ → ℝ) (out : RenderOut) : Option ℝ :=
  if 0 < w.lambda_shape ∧ 0 < out.points.length then
    some (shape_loss out.points out.density)
  else
    none

/-- The contribution of an optional (branch-guarded) loss term to the
running total: its value times its weight when the branch ran, `0`
otherwise. -/
noncomputable def optContrib (t : Option ℝ) (lam : ℝ) : ℝ :=
  match t with
  | some v => v * lam
  | none => 0

/-- The successful outcome of `training_step`: the running total
`loss = 0.0 + sds * λ_sds (+ orient) (+ sparsity) (+ binarization) (+ shape)`
together with the logged per-term values.  `lo`/`od` are the outcome of the
orientation branch. -/
noncomputable def stepResult (w : LossWeights) (sds : ℝ)
    (shape_loss : List Vec3 → List ℝ → ℝ) (out : RenderOut)
    (lo : Option ℝ) (od : Option ℕ) : StepResult :=
  { loss := 0.0 + sds * w.lambda_sds
      + optContrib lo w.lambda_orient
      + lossSparsity out.opacity * w.lambda_sparsity
      + lossOpacityBin out.opacity * w.lambda_opac
      + optContrib (shapeTerm w shape_loss out) w.lambda_shape
    loss_orient := lo
    orient_denom := od
    loss_sparsity := lossSparsity out.opacity
    loss_opac := lossOpacityBin out.opacity
    loss_shape := shapeTerm w shape_loss out }

/-- `LatentNeRF.training_step`, given the guidance output scalar
`guidance_out["sds"]` (the guidance model is an external collaborator),
the shape-prior loss evaluator `shape_loss` (constructed at configuration
time when a guide shape is configured), the evaluated loss weights, and
the render output.  Mirrors the source's control flow: the orientation
branch may raise, everything after it is total. -/
noncomputable def training_step (w : LossWeights) (sds : ℝ)
    (shape_loss : List Vec3 → List ℝ → ℝ) (out : RenderOut) :
    Except PyError StepResult :=
  match orientPart w out with
  | .error e => .error e
  | .ok (lo, od) => .ok (stepResult w sds shape_loss out lo od)

/-! ## Specification-side definitions (for refinement comparisons) -/

/-- The orientation loss exactly as the specification words it: "the sum
over all samples of the non-differentiated sample weight times the squared
positive part of the dot product of normal and ray direction, divided by
the count of samples whose accumulated opacity exceeds zero", written as
an indexed sum over sample positions. -/
noncomputable def specOrientLoss (weights : List ℝ) (normal t_dirs : List Vec3)
    (opacity : List ℝ) : ℝ :=
  (∑ i ∈ Finset.range weights.length,
      weights.getD i 0 *
        max 0 (dot (normal.getD i (0, 0, 0)) (t_dirs.getD i (0, 0, 0))) ^ 2)
    / ((opacity.filter (fun o => 0 < o)).length : ℝ)

/-- The per-ray integrand of the opacity-binarization term: the binary
cross-entropy of a value against itself,
`-(x * log x + (1 - x) * log (1 - x))`. -/
noncomputable def bceSelfTerm (x : ℝ) : ℝ :=
  -(x * Real.log x + (1 - x) * Real.log (1 - x))

/-! ## Concrete demonstration objects (used by witnesses) -/

/-- A concrete guidance model whose latent decoder is the identity. -/
def demoGuidance : Guidance := ⟨fun t => t⟩

/-- A concrete guidance constructor. -/
def demoBuild : Unit → Guidance := fun _ => demoGuidance

/-- A concrete all-zero 1×1×1×1 tensor. -/
noncomputable def demoTensor : Tensor4 := ⟨1, 1, 1, 1, fun _ _ _ _ => 0⟩

/-- A concrete renderer producing only a `"comp_rgb"` channel. -/
noncomputable def demoRenderer : Unit → Dict Tensor4 :=
  fun _ => [("comp_rgb", demoTensor)]

/-- A concrete shape-prior loss evaluator. -/
noncomputable def demoShapeLoss : List Vec3 → List ℝ → ℝ :=
  fun points _ => (points.length : ℝ)

/-- Loss weights with only the orientation weight switched on. -/
noncomputable def demoOrientWeights : LossWeights := ⟨0, 1, 0, 0, 0⟩

/-- A render output with normals and ray directions present but in which
no ray has positive accumulated opacity. -/
noncomputable def demoSparseOut : RenderOut :=
  { normal := some [(0, 0, 1)]
    t_dirs := some [(0, 0, 1)]
    weights := [1]
    opacity := [0, 0]
    points := []
    density := [] }

/-- Loss weights with only the shape weight switched on. -/
noncomputable def demoShapeWeights : LossWeights := ⟨0, 0, 0, 0, 5⟩

/-- A render output carrying no optional channels and no sample points. -/
noncomputable def demoEmptyOut : RenderOut :=
  { normal := none
    t_dirs := none
    weights := []
    opacity := []
    points := []
    density := [] }

/-- A render output lacking the `"normal"` channel. -/
noncomputable def demoNoNormalOut : RenderOut :=
  { normal := none
    t_dirs := some [(0, 0, 1)]
    weights := [1]
    opacity := [1]
    points := []
    density := [] }

/-- A render output with normals but lacking the `"t_dirs"` channel. -/
noncomputable def demoNoTdirsOut : RenderOut :=
  { normal := some [(0, 0, 1)]
    t_dirs := none
    weights := [1]
    opacity := [1]
    points := []
    density := [] }

/-- A render output with two samples carrying normals and ray
directions. -/
noncomputable def demoOrientOut : RenderOut :=
  { normal := some [(1, 0, 0), (0, 1, 0)]
    t_dirs := some [(1, 0, 0), (0, 0, 1)]
    weights := [1, 2]
    opacity := [1]
    points := []
    density := [] }

/-! ## Shared helper lemmas -/

lemma setup_guidance_of_isSome (build : Unit → Guidance) (s : GuidanceState)
    (h : s.guidance ≠ none) : setup_guidance build s = s := by
  cases hg : s.guidance with
  | none => exact absurd hg h
  | some g => simp [setup_guidance, hg]

lemma setup_guidance_iterate_fixed (build : Unit → Guidance) (s : GuidanceState)
    (h : s.guidance ≠ none) : ∀ n, (setup_guidance build)^[n] s = s := by
  intro n
  induction n with
  | zero => rfl
  | succ k ih =>
    rw [Function.iterate_succ_apply, setup_guidance_of_isSome build s h, ih]

lemma zipWith_zip_sum {α β : Type} (f : ℝ → α × β → ℝ) (a0 : α) (b0 : β) :
    ∀ (ws : List ℝ) (ns : List α) (ds : List β),
      ns.length = ws.length → ds.length = ws.length →
      (List.zipWith f ws (ns.zip ds)).sum =
        ∑ i ∈ Finset.range ws.length, f (ws.getD i 0) (ns.getD i a0, ds.getD i b0) := by
  intro ws
  induction ws with
  | nil => intro ns ds _ _; simp
  | cons wv ws2 ih =>
    intro ns ds h1 h2
    cases ns with
    | nil => simp at h1
    | cons nv ns2 =>
      cases ds with
      | nil => simp at h2
      | cons dv ds2 =>
        have h1b : ns2.length = ws2.length := by simpa using h1
        have h2b : ds2.length = ws2.length := by simpa using h2
        rw [List.zip_cons_cons]
        simp only [List.zipWith_cons_cons, List.sum_cons, List.length_cons]
        rw [Finset.sum_range_succ']
        simp only [List.getD_cons_succ, List.getD_cons_zero]
        rw [ih ns2 ds2 h1b h2b]
        ring

lemma sqrt_point01 : Real.sqrt 0.01 = 0.1 := by
  rw [show (0.01 : ℝ) = 0.1 ^ 2 by norm_num]
  exact Real.sqrt_sq (by norm_num)

lemma sum_ge_const (c : ℝ) :
    ∀ (l : List ℝ), (∀ x ∈ l, c ≤ x) → c * l.length ≤ l.sum := by
  intro l
  induction l with
  | nil => intro _; simp
  | cons a t ih =>
    intro h
    have ha := h a (List.mem_cons_self a t)
    have ht := ih (fun x hx => h x (List.mem_cons_of_mem a hx))
    simp only [List.sum_cons, List.length_cons]
    push_cast
    nlinarith [ht, ha]

lemma forall_eq_of_sum_eq_const (c : ℝ) :
    ∀ (l : List ℝ), (∀ x ∈ l, c ≤ x) → l.sum = c * l.length →
      ∀ x ∈ l, x = c := by
  intro l
  induction l with
  | nil => intro _ _ x hx; simp at hx
  | cons a t ih =>
    intro h hsum x hx
    have ha := h a (List.mem_cons_self a t)
    have ht := sum_ge_const c t (fun y hy => h y (List.mem_cons_of_mem a hy))
    simp only [List.sum_cons, List.length_cons] at hsum
    push_cast at hsum
    have hae : a = c := by nlinarith [ht, ha]
    have htsum : t.sum = c * t.length := by nlinarith [ht]
    rcases List.mem_cons.mp hx with h1 | h2
    · rw [h1, hae]
    · exact ih (fun y hy => h y (List.mem_cons_of_mem a hy)) htsum x h2

lemma sum_of_forall_eq (c : ℝ) :
    ∀ (l : List ℝ), (∀ x ∈ l, x = c) → l.sum = c * l.length := by
  intro l
  induction l with
  | nil => intro _; simp
  | cons a t ih =>
    intro h
    have ha := h a (List.mem_cons_self a t)
    have ht := ih (fun x hx => h x (List.mem_cons_of_mem a hx))
    simp only [List.sum_cons, List.length_cons]
    push_cast
    rw [ha, ht]; ring

lemma zipWith_self_map {α β : Type} (f : α → α → β) :
    ∀ (l : List α), List.zipWith f l l = l.map (fun x => f x x) := by
  intro l
  induction l with
  | nil => rfl
  | cons a t ih => simp [List.zipWith_cons_cons, ih]

lemma bceSelfTerm_eq_binEntropy (x : ℝ) : bceSelfTerm x = Real.binEntropy x := by
  simp only [bceSelfTerm, Real.binEntropy, Real.log_inv]
  ring

lemma lossOpacityBin_eq (opacity : List ℝ) :
    lossOpacityBin opacity = mean ((opacityClamped opacity).map bceSelfTerm) := by
  unfold lossOpacityBin binary_cross_entropy bceSelfTerm
  rw [zipWith_self_map]

lemma clamp_bounds (o : ℝ) :
    1.0e-3 ≤ clamp o 1.0e-3 (1 - 1.0e-3) ∧
      clamp o 1.0e-3 (1 - 1.0e-3) ≤ 1 - 1.0e-3 := by
  unfold clamp
  exact ⟨le_min (le_max_right o _) (by norm_num), min_le_right _ _⟩

lemma clamp_mono {a b : ℝ} (h : a ≤ b) (lo hi : ℝ) :
    clamp a lo hi ≤ clamp b lo hi := by
  unfold clamp
  exact min_le_min (max_le_max h (le_refl lo)) (le_refl hi)

lemma clamp_le_half {b : ℝ} (h : b ≤ 1 / 2) :
    clamp b 1.0e-3 (1 - 1.0e-3) ≤ 1 / 2 := by
  unfold clamp
  exact le_trans (min_le_left _ _) (max_le h (by norm_num))

lemma half_le_clamp {a : ℝ} (h : 1 / 2 ≤ a) :
    1 / 2 ≤ clamp a 1.0e-3 (1 - 1.0e-3) := by
  unfold clamp
  exact le_min (le_trans h (le_max_left a _)) (by norm_num)

/-! ## C1: forward with decode -/

/-- C1: `forward` with `decode = True` returns the render output augmented
with a `"decoded_rgb"` entry; in refinement mode `decoded_rgb` is
bit-identical to `comp_rgb`, and otherwise it is the guidance model's
latent decoder applied to `comp_rgb` (wrapped in the axis permutations to
and from the decoder's channel-first layout). -/
theorem forward_decode_spec {Batch : Type} (renderer : Batch → Dict Tensor4)
    (batch : Batch) (g : Guidance) (c : Tensor4)
    (h : dictGet (renderer batch) "comp_rgb" = some c) :
    (∀ guidance, forward true guidance renderer batch true =
        .ok (dictSet (renderer batch) "decoded_rgb" c)) ∧
    forward false (some g) renderer batch true =
      .ok (dictSet (renderer batch) "decoded_rgb"
        ((g.decode_latents c.permute_0312).permute_0231)) := by
  constructor
  · intro guidance
    simp [forward, h]
  · simp [forward, h]

/-- Witness for C1 at a concrete renderer, batch and guidance model. -/
theorem forward_decode_spec_witness :
    forward true none demoRenderer () true =
      .ok (dictSet (demoRenderer ()) "decoded_rgb" demoTensor) ∧
    forward false (some demoGuidance) demoRenderer () true =
      .ok (dictSet (demoRenderer ()) "decoded_rgb"
        ((demoGuidance.decode_latents demoTensor.permute_0312).permute_0231)) :=
  ⟨(forward_decode_spec demoRenderer () demoGuidance demoTensor rfl).1 none,
   (forward_decode_spec demoRenderer () demoGuidance demoTensor rfl).2⟩

/-! ## C2: checkpoint filtering -/

/-- C2: `on_save_checkpoint` retains exactly the state-dict entries whose
top-level dotted-name segment is neither `"prompt_processor"` nor
`"guidance"`; the synthetic state dict with keys
`{"geometry.w", "guidance.w", "prompt_processor.w"}` is filtered down to
only `"geometry.w"`. -/
theorem on_save_checkpoint_spec :
    (∀ (α : Type) (sd : List (String × α)) (kv : String × α),
        kv ∈ on_save_checkpoint sd ↔
          kv ∈ sd ∧ topLevelSegment kv.1 ≠ "prompt_processor" ∧
            topLevelSegment kv.1 ≠ "guidance") ∧
    on_save_checkpoint [("geometry.w", (0 : ℕ)), ("guidance.w", 1),
        ("prompt_processor.w", 2)] = [("geometry.w", 0)] := by
  constructor
  · intro α sd kv
    simp [on_save_checkpoint, List.mem_filter, not_or, and_assoc]
  · decide

/-! ## C9: idempotent deferred guidance construction -/

/-- C9: `setup_guidance` constructs the guidance model at most once: the
first call on a guidance-less state constructs it (exactly one
construction), a call on a state already holding an instance changes
nothing, and any number of iterated calls performs at most one
construction in total. -/
theorem setup_guidance_spec :
    (∀ (build : Unit → Guidance) (s : GuidanceState), s.guidance = none →
        (setup_guidance build s).guidance = some (build ()) ∧
        (setup_guidance build s).constructions = s.constructions + 1) ∧
    (∀ (build : Unit → Guidance) (s : GuidanceState), s.guidance ≠ none →
        setup_guidance build s = s) ∧
    (∀ (build : Unit → Guidance) (s : GuidanceState) (n : ℕ),
        ((setup_guidance build)^[n] s).constructions ≤ s.constructions + 1) := by
  refine ⟨?_, ?_, ?_⟩
  · intro build s h
    simp [setup_guidance, h]
  · intro build s h
    exact setup_guidance_of_isSome build s h
  · intro build s n
    cases n with
    | zero => simp
    | succ k =>
      rw [Function.iterate_succ_apply]
      cases hg : s.guidance with
      | some g =>
        rw [setup_guidance_of_isSome build s (by simp [hg]),
          setup_guidance_iterate_fixed build s (by simp [hg]) k]
        exact Nat.le_succ _
      | none =>
        have hstep : setup_guidance build s =
            { guidance := some (build ()), constructions := s.constructions + 1 } := by
          simp [setup_guidance, hg]
        rw [hstep, setup_guidance_iterate_fixed build _ (by simp) k]

/-- Witness for C9 at a concrete constructor and concrete states. -/
theorem setup_guidance_spec_witness :
    ((setup_guidance demoBuild ⟨none, 0⟩).guidance = some (demoBuild ()) ∧
      (setup_guidance demoBuild ⟨none, 0⟩).constructions = 0 + 1) ∧
    setup_guidance demoBuild ⟨some demoGuidance, 1⟩ = ⟨some demoGuidance, 1⟩ ∧
    ((setup_guidance demoBuild)^[5] ⟨none, 0⟩).constructions ≤ 0 + 1 :=
  ⟨setup_guidance_spec.1 demoBuild ⟨none, 0⟩ rfl,
   setup_guidance_spec.2.1 demoBuild ⟨some demoGuidance, 1⟩ (by simp),
   setup_guidance_spec.2.2 demoBuild ⟨none, 0⟩ 5⟩

/-! ## C10: when the hooks construct guidance -/

/-- C10 counterexample: in refinement mode, a run that reaches
`on_fit_start` does construct the guidance model — `on_fit_start` calls
`setup_guidance` unconditionally — contradicting "guidance is never
constructed during the run" for refinement mode. -/
theorem on_fit_start_constructs_despite_refinement :
    (runHooks demoBuild true [Hook.fitStart] ⟨none, 0⟩).guidance
        = some demoGuidance ∧
    (runHooks demoBuild true [Hook.fitStart] ⟨none, 0⟩).constructions = 1 :=
  ⟨rfl, rfl⟩

/-- C10 (amended): `setup_guidance` is invoked by `on_fit_start`
unconditionally — also in refinement mode, since the training step queries
guidance regardless of mode — and by `on_validation_start` and
`on_test_start` only when not in refinement mode; consequently a
refinement-mode run that never reaches `on_fit_start` never constructs
guidance. -/
theorem guidance_hook_schedule :
    (∀ (build : Unit → Guidance) (r : Bool) (s : GuidanceState),
        on_fit_start build r s = setup_guidance build s) ∧
    (∀ (build : Unit → Guidance) (s : GuidanceState),
        on_validation_start build true s = s ∧ on_test_start build true s = s) ∧
    (∀ (build : Unit → Guidance) (s : GuidanceState),
        on_validation_start build false s = setup_guidance build s ∧
        on_test_start build false s = setup_guidance build s) ∧
    (∀ (build : Unit → Guidance) (hooks : List Hook) (s : GuidanceState),
        Hook.fitStart ∉ hooks → runHooks build true hooks s = s) := by
  refine ⟨fun _ _ _ => rfl, fun _ _ => ⟨rfl, rfl⟩, fun _ _ => ⟨rfl, rfl⟩, ?_⟩
  intro build hooks
  induction hooks with
  | nil => intro s _; rfl
  | cons hd tl ih =>
    intro s hnot
    have h2 : Hook.fitStart ∉ tl := fun ht => hnot (List.mem_cons_of_mem hd ht)
    cases hd with
    | fitStart => exact absurd (List.mem_cons_self _ _) hnot
    | validationStart =>
      show runHooks build true tl (runHook build true .validationStart s) = s
      rw [show runHook build true .validationStart s = s from rfl]
      exact ih s h2
    | testStart =>
      show runHooks build true tl (runHook build true .testStart s) = s
      rw [show runHook build true .testStart s = s from rfl]
      exact ih s h2

/-- Witness for the amended C10: a refinement-mode run consisting of a
validation phase and a test phase leaves the guidance state untouched. -/
theorem guidance_hook_schedule_witness :
    runHooks demoBuild true [Hook.validationStart, Hook.testStart] ⟨none, 0⟩
      = ⟨none, 0⟩ :=
  guidance_hook_schedule.2.2.2 demoBuild [Hook.validationStart, Hook.testStart]
    ⟨none, 0⟩ (by decide)

/-! ## C3: orientation-loss guard -/

/-- C3: when the evaluated orientation weight is positive, the training
step fails fatally if `"normal"` or `"t_dirs"` is absent from the render
output (the explicit `ValueError` for a missing `"normal"`, the implicit
dictionary `KeyError` for a missing `"t_dirs"`); when the weight is not
positive, the orientation term is never computed and contributes `0` to
the loss, whatever channels are present. -/
theorem orient_guard (w : LossWeights) (sds : ℝ)
    (sl : List Vec3 → List ℝ → ℝ) (out : RenderOut) :
    (0 < w.lambda_orient → out.normal = none →
      training_step w sds sl out = .error (.valueError
        "Normal is required for orientation loss, no normal is found in the output.")) ∧
    (0 < w.lambda_orient → out.t_dirs = none → ∀ n, out.normal = some n →
      training_step w sds sl out = .error (.keyError "t_dirs")) ∧
    (w.lambda_orient ≤ 0 →
      training_step w sds sl out = .ok (stepResult w sds sl out none none) ∧
      (stepResult w sds sl out none none).loss_orient = none ∧
      (stepResult w sds sl out none none).loss =
        0.0 + sds * w.lambda_sds + 0
          + lossSparsity out.opacity * w.lambda_sparsity
          + lossOpacityBin out.opacity * w.lambda_opac
          + optContrib (shapeTerm w sl out) w.lambda_shape) := by
  refine ⟨?_, ?_, ?_⟩
  · intro hpos hn
    simp [training_step, orientPart, if_pos hpos, hn]
  · intro hpos ht n hn
    simp [training_step, orientPart, if_pos hpos, hn, ht]
  · intro hle
    have hnot : ¬ 0 < w.lambda_orient := not_lt.mpr hle
    refine ⟨by simp [training_step, orientPart, if_neg hnot], rfl, ?_⟩
    simp [stepResult, optContrib]

/-- Witness for C3: the two fatal paths and the skipped-term path at
concrete inputs. -/
theorem orient_guard_witness :
    training_step demoOrientWeights 0 demoShapeLoss demoNoNormalOut =
      .error (.valueError
        "Normal is required for orientation loss, no normal is found in the output.") ∧
    training_step demoOrientWeights 0 demoShapeLoss demoNoTdirsOut =
      .error (.keyError "t_dirs") ∧
    training_step demoShapeWeights 0 demoShapeLoss demoNoNormalOut =
      .ok (stepResult demoShapeWeights 0 demoShapeLoss demoNoNormalOut none none) :=
  ⟨(orient_guard demoOrientWeights 0 demoShapeLoss demoNoNormalOut).1
      (by norm_num [demoOrientWeights]) rfl,
   (orient_guard demoOrientWeights 0 demoShapeLoss demoNoTdirsOut).2.1
      (by norm_num [demoOrientWeights]) rfl [(0, 0, 1)] rfl,
   ((orient_guard demoShapeWeights 0 demoShapeLoss demoNoNormalOut).2.2
      (by norm_num [demoShapeWeights])).1⟩

/-! ## C4: the orientation-loss formula -/

/-- C4: with the orientation weight positive and both `"normal"` and
`"t_dirs"` present (shaped like the sample weights), the step succeeds and
the orientation loss it computes is exactly the specification's formula:
the sum over samples of the non-differentiated sample weight times the
squared positive part of the normal/ray-direction dot product, divided by
the count of rays with positive accumulated opacity. -/
theorem orient_loss_formula (w : LossWeights) (sds : ℝ)
    (sl : List Vec3 → List ℝ → ℝ) (out : RenderOut) (n d : List Vec3)
    (hpos : 0 < w.lambda_orient) (hn : out.normal = some n)
    (hd : out.t_dirs = some d) (hlen1 : n.length = out.weights.length)
    (hlen2 : d.length = out.weights.length) :
    training_step w sds sl out =
      .ok (stepResult w sds sl out
        (some (lossOrient out.weights n d out.opacity))
        (some (countPosOpacity out.opacity))) ∧
    lossOrient out.weights n d out.opacity =
      specOrientLoss out.weights n d out.opacity := by
  constructor
  · simp [training_step, orientPart, if_pos hpos, hn, hd]
  · unfold lossOrient specOrientLoss countPosOpacity
    rw [zipWith_zip_sum (fun wv nd => wv * clampMin (dot nd.1 nd.2) 0 ^ 2)
      (0, 0, 0) (0, 0, 0) out.weights n d hlen1 hlen2]
    congr 1
    apply Finset.sum_congr rfl
    intro i _
    unfold clampMin
    rw [max_comm]

/-- Witness for C4 at a concrete two-sample render output. -/
theorem orient_loss_formula_witness :
    training_step demoOrientWeights 0 demoShapeLoss demoOrientOut =
      .ok (stepResult demoOrientWeights 0 demoShapeLoss demoOrientOut
        (some (lossOrient demoOrientOut.weights [(1, 0, 0), (0, 1, 0)]
          [(1, 0, 0), (0, 0, 1)] demoOrientOut.opacity))
        (some (countPosOpacity demoOrientOut.opacity))) ∧
    lossOrient demoOrientOut.weights [(1, 0, 0), (0, 1, 0)]
        [(1, 0, 0), (0, 0, 1)] demoOrientOut.opacity =
      specOrientLoss demoOrientOut.weights [(1, 0, 0), (0, 1, 0)]
        [(1, 0, 0), (0, 0, 1)] demoOrientOut.opacity :=
  orient_loss_formula demoOrientWeights 0 demoShapeLoss demoOrientOut
    [(1, 0, 0), (0, 1, 0)] [(1, 0, 0), (0, 0, 1)]
    (by norm_num [demoOrientWeights]) rfl rfl rfl rfl

/-! ## C5: unguarded division by zero in the normalization -/

/-- C5: the orientation-loss normalization has no guard on the count of
positive-opacity rays: in `demoSparseOut` the orientation weight is
positive, normals and ray directions are present, no ray has positive
accumulated opacity, and the step still reaches the division, with
denominator `(out["opacity"] > 0).sum() = 0`. -/
theorem orient_division_by_zero_reached :
    0 < demoOrientWeights.lambda_orient ∧
    demoSparseOut.normal ≠ none ∧
    demoSparseOut.t_dirs ≠ none ∧
    countPosOpacity demoSparseOut.opacity = 0 ∧
    (training_step demoOrientWeights 0 demoShapeLoss demoSparseOut).map
        StepResult.orient_denom = .ok (some 0) := by
  have hpos : (0 : ℝ) < demoOrientWeights.lambda_orient := by
    norm_num [demoOrientWeights]
  have hcount : countPosOpacity demoSparseOut.opacity = 0 := by
    norm_num [countPosOpacity, demoSparseOut, List.filter]
  refine ⟨hpos, by simp [demoSparseOut], by simp [demoSparseOut], hcount, ?_⟩
  have hstep : training_step demoOrientWeights 0 demoShapeLoss demoSparseOut =
      .ok (stepResult demoOrientWeights 0 demoShapeLoss demoSparseOut
        (some (lossOrient demoSparseOut.weights [(0, 0, 1)] [(0, 0, 1)]
          demoSparseOut.opacity))
        (some (countPosOpacity demoSparseOut.opacity))) := by
    simp [training_step, orientPart, if_pos hpos,
      show demoSparseOut.normal = some [(0, 0, 1)] from rfl,
      show demoSparseOut.t_dirs = some [(0, 0, 1)] from rfl]
  rw [hstep]
  simp [stepResult, hcount, Except.map]

/-! ## C8: the shape-loss guard -/

/-- C8: the shape-prior evaluator is invoked iff the shape weight is
positive and the render produced at least one sample point; with zero
sample points the branch is skipped (`loss_shape = none`, the evaluator is
never applied) and the shape term contributes `0` to the returned loss
even when the weight is positive. -/
theorem shape_guard (w : LossWeights) (sds : ℝ)
    (sl : List Vec3 → List ℝ → ℝ) (out : RenderOut)
    (lo : Option ℝ) (od : Option ℕ) :
    (orientPart w out = .ok (lo, od) →
      training_step w sds sl out = .ok (stepResult w sds sl out lo od)) ∧
    (out.points = [] →
      shapeTerm w sl out = none ∧
      (stepResult w sds sl out lo od).loss_shape = none ∧
      (stepResult w sds sl out lo od).loss =
        0.0 + sds * w.lambda_sds + optContrib lo w.lambda_orient
          + lossSparsity out.opacity * w.lambda_sparsity
          + lossOpacityBin out.opacity * w.lambda_opac + 0) ∧
    (shapeTerm w sl out ≠ none →
      0 < w.lambda_shape ∧ 0 < out.points.length ∧
      shapeTerm w sl out = some (sl out.points out.density)) := by
  refine ⟨?_, ?_, ?_⟩
  · intro h
    simp [training_step, h]
  · intro hp
    have hnone : shapeTerm w sl out = none := by
      have : ¬ (0 < w.lambda_shape ∧ 0 < out.points.length) := by
        simp [hp]
      simp [shapeTerm, if_neg this]
    exact ⟨hnone, by simp [stepResult, hnone], by simp [stepResult, hnone, optContrib]⟩
  · intro hne
    have hc : 0 < w.lambda_shape ∧ 0 < out.points.length := by
      by_contra hcon
      exact hne (by simp [shapeTerm, if_neg hcon])
    exact ⟨hc.1, hc.2, by simp [shapeTerm, if_pos hc]⟩

/-- Witness for C8: a positive shape weight with an empty point set skips
the evaluator and contributes `0`. -/
theorem shape_guard_witness :
    training_step demoShapeWeights 0 demoShapeLoss demoEmptyOut =
      .ok (stepResult demoShapeWeights 0 demoShapeLoss demoEmptyOut none none) ∧
    shapeTerm demoShapeWeights demoShapeLoss demoEmptyOut = none ∧
    (stepResult demoShapeWeights 0 demoShapeLoss demoEmptyOut none none).loss_shape
      = none ∧
    (stepResult demoShapeWeights 0 demoShapeLoss demoEmptyOut none none).loss =
      0.0 + 0 * demoShapeWeights.lambda_sds + optContrib none demoShapeWeights.lambda_orient
        + lossSparsity demoEmptyOut.opacity * demoShapeWeights.lambda_sparsity
        + lossOpacityBin demoEmptyOut.opacity * demoShapeWeights.lambda_opac + 0 :=
  ⟨(shape_guard demoShapeWeights 0 demoShapeLoss demoEmptyOut none none).1
      (by simp [orientPart, if_neg (by norm_num [demoShapeWeights] :
        ¬ (0 : ℝ) < demoShapeWeights.lambda_orient)]),
   (shape_guard demoShapeWeights 0 demoShapeLoss demoEmptyOut none none).2.1 rfl⟩

/-! ## C6: sparsity regularizer bounds -/

/-- C6: the sparsity regularizer — the mean over rays of
`sqrt(opacity² + 0.01)` — is bounded below by `sqrt(0.01) = 0.1`, and for
a nonempty set of rays it attains the minimum `0.1` exactly when every
ray's opacity is `0`. -/
theorem sparsity_bounds (opacity : List ℝ) (hne : opacity ≠ []) :
    Real.sqrt 0.01 = 0.1 ∧
    0.1 ≤ lossSparsity opacity ∧
    (lossSparsity opacity = 0.1 ↔ ∀ o ∈ opacity, o = 0) := by
  have hs01 : Real.sqrt 0.01 = 0.1 := sqrt_point01
  have hlow : ∀ x ∈ opacity.map (fun o => Real.sqrt (o ^ 2 + 0.01)), (0.1 : ℝ) ≤ x := by
    intro x hx
    rcases List.mem_map.mp hx with ⟨o, ho, rfl⟩
    calc (0.1 : ℝ) = Real.sqrt 0.01 := hs01.symm
    _ ≤ Real.sqrt (o ^ 2 + 0.01) := Real.sqrt_le_sqrt (by nlinarith [sq_nonneg o])
  have hlen0 : opacity.length ≠ 0 := fun h => hne (List.eq_nil_of_length_eq_zero h)
  have hlenpos : 0 < opacity.length := Nat.pos_of_ne_zero hlen0
  have hlenR : (0 : ℝ) < (opacity.length : ℝ) := by exact_mod_cast hlenpos
  have hlenRne : ((opacity.length : ℝ)) ≠ 0 := ne_of_gt hlenR
  have hmean : lossSparsity opacity =
      (opacity.map (fun o => Real.sqrt (o ^ 2 + 0.01))).sum / (opacity.length : ℝ) := by
    simp [lossSparsity, mean, List.length_map]
  refine ⟨hs01, ?_, ?_, ?_⟩
  · rw [hmean, le_div_iff₀ hlenR]
    have hges := sum_ge_const 0.1 (opacity.map fun o => Real.sqrt (o ^ 2 + 0.01)) hlow
    calc (0.1 : ℝ) * (opacity.length : ℝ)
        = 0.1 * ((opacity.map fun o => Real.sqrt (o ^ 2 + 0.01)).length : ℝ) := by
          rw [List.length_map]
    _ ≤ _ := hges
  · intro heq
    rw [hmean, div_eq_iff hlenRne] at heq
    have hsum : (opacity.map (fun o => Real.sqrt (o ^ 2 + 0.01))).sum =
        0.1 * ((opacity.map (fun o => Real.sqrt (o ^ 2 + 0.01))).length : ℝ) := by
      rw [List.length_map]; exact heq
    have hall := forall_eq_of_sum_eq_const 0.1 _ hlow hsum
    intro o ho
    have hx := hall (Real.sqrt (o ^ 2 + 0.01)) (List.mem_map_of_mem _ ho)
    have h1 : Real.sqrt (o ^ 2 + 0.01) = Real.sqrt 0.01 := by rw [hx, hs01]
    have ha : (0 : ℝ) ≤ o ^ 2 + 0.01 := by positivity
    have hb : (0 : ℝ) ≤ 0.01 := by norm_num
    have h2 := congrArg (fun t : ℝ => t ^ 2) h1
    simp only [Real.sq_sqrt ha, Real.sq_sqrt hb] at h2
    have ho2 : o ^ 2 = 0 := by linarith
    exact pow_eq_zero_iff (by norm_num) |>.mp ho2
  · intro hall
    have hconst : ∀ x ∈ opacity.map (fun o => Real.sqrt (o ^ 2 + 0.01)), x = 0.1 := by
      intro x hx
      rcases List.mem_map.mp hx with ⟨o, ho, rfl⟩
      rw [hall o ho]
      simpa using hs01
    have hsum := sum_of_forall_eq 0.1 _ hconst
    rw [hmean, hsum, List.length_map]
    exact mul_div_cancel_right₀ 0.1 hlenRne

/-- Witness for C6: a single fully transparent ray attains exactly the
minimum `0.1`. -/
theorem sparsity_bounds_witness : lossSparsity [(0 : ℝ)] = 0.1 :=
  ((sparsity_bounds [0] (by simp)).2.2).mpr (by simp)

/-! ## C7: opacity-binarization term -/

/-- C7: the opacity-binarization term is the self-binary-cross-entropy of
the clamped opacity.  Its per-ray integrand vanishes exactly at `0` and at
`1`; since the clamp maps every opacity into `[1e-3, 1 - 1e-3]`, each
per-ray term is strictly positive and so is the mean for any nonempty set
of rays; and the clamped integrand increases monotonically as the opacity
moves toward `0.5` from either side. -/
theorem binarization_properties :
    (bceSelfTerm 0 = 0 ∧ bceSelfTerm 1 = 0) ∧
    (∀ (opacity : List ℝ), opacity ≠ [] → 0 < lossOpacityBin opacity) ∧
    (∀ a b : ℝ, a ≤ b → b ≤ 1 / 2 →
      bceSelfTerm (clamp a 1.0e-3 (1 - 1.0e-3)) ≤
        bceSelfTerm (clamp b 1.0e-3 (1 - 1.0e-3))) ∧
    (∀ a b : ℝ, 1 / 2 ≤ a → a ≤ b →
      bceSelfTerm (clamp b 1.0e-3 (1 - 1.0e-3)) ≤
        bceSelfTerm (clamp a 1.0e-3 (1 - 1.0e-3))) := by
  refine ⟨⟨by simp [bceSelfTerm], by simp [bceSelfTerm]⟩, ?_, ?_, ?_⟩
  · intro opacity hne
    rw [lossOpacityBin_eq]
    have hpos : ∀ x ∈ (opacityClamped opacity).map bceSelfTerm, 0 < x := by
      intro x hx
      rcases List.mem_map.mp hx with ⟨c, hc, rfl⟩
      rcases List.mem_map.mp hc with ⟨o, ho, rfl⟩
      have h1 := clamp_bounds o
      rw [bceSelfTerm_eq_binEntropy]
      exact Real.binEntropy_pos (by linarith [h1.1]) (by linarith [h1.2])
    have hne2 : (opacityClamped opacity).map bceSelfTerm ≠ [] := by
      simp [opacityClamped, hne]
    have hsum := List.sum_pos _ hpos hne2
    unfold mean
    apply div_pos hsum
    have hlen : ((opacityClamped opacity).map bceSelfTerm).length = opacity.length := by
      simp [opacityClamped]
    rw [hlen]
    exact_mod_cast Nat.pos_of_ne_zero
      (fun h => hne (List.eq_nil_of_length_eq_zero h))
  · intro a b hab hb2
    rw [bceSelfTerm_eq_binEntropy, bceSelfTerm_eq_binEntropy]
    have hmemA : clamp a 1.0e-3 (1 - 1.0e-3) ∈ Set.Icc (0 : ℝ) 2⁻¹ := by
      constructor
      · linarith [(clamp_bounds a).1]
      · have := clamp_le_half (le_trans hab hb2)
        rw [show ((2 : ℝ))⁻¹ = 1 / 2 by norm_num]
        exact this
    have hmemB : clamp b 1.0e-3 (1 - 1.0e-3) ∈ Set.Icc (0 : ℝ) 2⁻¹ := by
      constructor
      · linarith [(clamp_bounds b).1]
      · have := clamp_le_half hb2
        rw [show ((2 : ℝ))⁻¹ = 1 / 2 by norm_num]
        exact this
    exact Real.binEntropy_strictMonoOn.monotoneOn hmemA hmemB (clamp_mono hab _ _)
  · intro a b ha2 hab
    rw [bceSelfTerm_eq_binEntropy, bceSelfTerm_eq_binEntropy]
    have hmemA : clamp a 1.0e-3 (1 - 1.0e-3) ∈ Set.Icc ((2 : ℝ))⁻¹ 1 := by
      constructor
      · rw [show ((2 : ℝ))⁻¹ = 1 / 2 by norm_num]
        exact half_le_clamp ha2
      · linarith [(clamp_bounds a).2]
    have hmemB : clamp b 1.0e-3 (1 - 1.0e-3) ∈ Set.Icc ((2 : ℝ))⁻¹ 1 := by
      constructor
      · rw [show ((2 : ℝ))⁻¹ = 1 / 2 by norm_num]
        exact half_le_clamp (le_trans ha2 hab)
      · linarith [(clamp_bounds b).2]
    exact Real.binEntropy_strictAntiOn.antitoneOn hmemA hmemB (clamp_mono hab _ _)

/-- Witness for C7 at concrete opacities on both sides of `0.5`. -/
theorem binarization_properties_witness :
    0 < lossOpacityBin [(1 : ℝ)] ∧
    bceSelfTerm (clamp 0.2 1.0e-3 (1 - 1.0e-3)) ≤
      bceSelfTerm (clamp 0.3 1.0e-3 (1 - 1.0e-3)) ∧
    bceSelfTerm (clamp 0.8 1.0e-3 (1 - 1.0e-3)) ≤
      bceSelfTerm (clamp 0.6 1.0e-3 (1 - 1.0e-3)) :=
  ⟨binarization_properties.2.1 [1] (by simp),
   binarization_properties.2.2.1 0.2 0.3 (by norm_num) (by norm_num),
   binarization_properties.2.2.2 0.6 0.8 (by norm_num) (by norm_num)⟩

end LatentNeRF
